import Mathlib

set_option maxHeartbeats 1000000
set_option maxRecDepth 4096

/-!
Verification of the Xapiand Schema engine (src/src/database/schema.cc)
against its natural-language specification.

The definitions below are a shallow embedding of the relevant C++ code.
Byte strings are modelled as `List Nat` where byte lengths matter, and as
Lean `String` for the ASCII type-token tables.  The perfect-hash keyword
dispatch (`phf::make_phf` / `fhhl`) is modelled as exact string dispatch,
which is the dispatch's documented contract (collision-free within the
closed vocabulary).  C++ `THROW(ClientError, ...)` is modelled as
`Option`/`Except` error results.
-/

/-- FieldType, the tagged variant of field type tags
(schema.cc, `enum class FieldType`). -/
inductive FieldType
  | empty
  | boolean
  | integer
  | positive
  | floating
  | date
  | datetime
  | time
  | timedelta
  | keyword
  | text
  | string
  | uuid
  | geo
  | script
  | foreign
  | object
  | array
deriving DecidableEq, Repr

/-- The 4-tuple `sep_types` of a field: positions SPC_FOREIGN_TYPE,
SPC_OBJECT_TYPE, SPC_ARRAY_TYPE, SPC_CONCRETE_TYPE (schema.cc). -/
structure SepTypes where
  foreignT : FieldType
  objectT : FieldType
  arrayT : FieldType
  concreteT : FieldType
deriving DecidableEq, Repr

/-- Shallow embedding of `_get_type` (schema.cc:753-1267): the parse table
from a type-descriptor string to a `sep_types` tuple.  Every `case
_.fhhl("...")` of the C++ switch is one comparison of the chain (the
perfect-hash dispatch modelled as sequential exact comparison); the C++
default (and the explicit `"undefined"` case, which shares the default's
body) returns the all-empty tuple. -/
def _get_type (s : String) : SepTypes :=
  if s = "boolean" then ⟨.empty, .empty, .empty, .boolean⟩
  else if s = "date" then ⟨.empty, .empty, .empty, .date⟩
  else if s = "datetime" then ⟨.empty, .empty, .empty, .datetime⟩
  else if s = "float" then ⟨.empty, .empty, .empty, .floating⟩
  else if s = "floating" then ⟨.empty, .empty, .empty, .floating⟩
  else if s = "geospatial" then ⟨.empty, .empty, .empty, .geo⟩
  else if s = "integer" then ⟨.empty, .empty, .empty, .integer⟩
  else if s = "positive" then ⟨.empty, .empty, .empty, .positive⟩
  else if s = "string" then ⟨.empty, .empty, .empty, .string⟩
  else if s = "term" then ⟨.empty, .empty, .empty, .keyword⟩
  else if s = "keyword" then ⟨.empty, .empty, .empty, .keyword⟩
  else if s = "text" then ⟨.empty, .empty, .empty, .text⟩
  else if s = "time" then ⟨.empty, .empty, .empty, .time⟩
  else if s = "timedelta" then ⟨.empty, .empty, .empty, .timedelta⟩
  else if s = "uuid" then ⟨.empty, .empty, .empty, .uuid⟩
  else if s = "array" then ⟨.empty, .empty, .array, .empty⟩
  else if s = "boolean/array" then ⟨.empty, .empty, .array, .boolean⟩
  else if s = "array/boolean" then ⟨.empty, .empty, .array, .boolean⟩
  else if s = "date/array" then ⟨.empty, .empty, .array, .date⟩
  else if s = "array/date" then ⟨.empty, .empty, .array, .date⟩
  else if s = "datetime/array" then ⟨.empty, .empty, .array, .datetime⟩
  else if s = "array/datetime" then ⟨.empty, .empty, .array, .datetime⟩
  else if s = "float/array" then ⟨.empty, .empty, .array, .floating⟩
  else if s = "array/float" then ⟨.empty, .empty, .array, .floating⟩
  else if s = "geospatial/array" then ⟨.empty, .empty, .array, .geo⟩
  else if s = "array/geospatial" then ⟨.empty, .empty, .array, .geo⟩
  else if s = "integer/array" then ⟨.empty, .empty, .array, .integer⟩
  else if s = "array/integer" then ⟨.empty, .empty, .array, .integer⟩
  else if s = "positive/array" then ⟨.empty, .empty, .array, .positive⟩
  else if s = "array/positive" then ⟨.empty, .empty, .array, .positive⟩
  else if s = "string/array" then ⟨.empty, .empty, .array, .string⟩
  else if s = "array/string" then ⟨.empty, .empty, .array, .string⟩
  else if s = "term/array" then ⟨.empty, .empty, .array, .keyword⟩
  else if s = "array/term" then ⟨.empty, .empty, .array, .keyword⟩
  else if s = "keyword/array" then ⟨.empty, .empty, .array, .keyword⟩
  else if s = "array/keyword" then ⟨.empty, .empty, .array, .keyword⟩
  else if s = "text/array" then ⟨.empty, .empty, .array, .text⟩
  else if s = "array/text" then ⟨.empty, .empty, .array, .text⟩
  else if s = "time/array" then ⟨.empty, .empty, .array, .time⟩
  else if s = "array/time" then ⟨.empty, .empty, .array, .time⟩
  else if s = "timedelta/array" then ⟨.empty, .empty, .array, .timedelta⟩
  else if s = "array/timedelta" then ⟨.empty, .empty, .array, .timedelta⟩
  else if s = "uuid/array" then ⟨.empty, .empty, .array, .uuid⟩
  else if s = "array/uuid" then ⟨.empty, .empty, .array, .uuid⟩
  else if s = "object" then ⟨.empty, .object, .empty, .empty⟩
  else if s = "array/object" then ⟨.empty, .object, .array, .empty⟩
  else if s = "object/array" then ⟨.empty, .object, .array, .empty⟩
  else if s = "array/boolean/object" then ⟨.empty, .object, .array, .boolean⟩
  else if s = "array/object/boolean" then ⟨.empty, .object, .array, .boolean⟩
  else if s = "object/array/boolean" then ⟨.empty, .object, .array, .boolean⟩
  else if s = "boolean/array/object" then ⟨.empty, .object, .array, .boolean⟩
  else if s = "boolean/object/array" then ⟨.empty, .object, .array, .boolean⟩
  else if s = "object/boolean/array" then ⟨.empty, .object, .array, .boolean⟩
  else if s = "array/date/object" then ⟨.empty, .object, .array, .date⟩
  else if s = "array/object/date" then ⟨.empty, .object, .array, .date⟩
  else if s = "object/array/date" then ⟨.empty, .object, .array, .date⟩
  else if s = "date/array/object" then ⟨.empty, .object, .array, .date⟩
  else if s = "date/object/array" then ⟨.empty, .object, .array, .date⟩
  else if s = "object/date/array" then ⟨.empty, .object, .array, .date⟩
  else if s = "array/datetime/object" then ⟨.empty, .object, .array, .datetime⟩
  else if s = "array/object/datetime" then ⟨.empty, .object, .array, .datetime⟩
  else if s = "object/array/datetime" then ⟨.empty, .object, .array, .datetime⟩
  else if s = "datetime/array/object" then ⟨.empty, .object, .array, .datetime⟩
  else if s = "datetime/object/array" then ⟨.empty, .object, .array, .datetime⟩
  else if s = "object/datetime/array" then ⟨.empty, .object, .array, .datetime⟩
  else if s = "array/float/object" then ⟨.empty, .object, .array, .floating⟩
  else if s = "array/object/float" then ⟨.empty, .object, .array, .floating⟩
  else if s = "object/array/float" then ⟨.empty, .object, .array, .floating⟩
  else if s = "float/array/object" then ⟨.empty, .object, .array, .floating⟩
  else if s = "float/object/array" then ⟨.empty, .object, .array, .floating⟩
  else if s = "object/float/array" then ⟨.empty, .object, .array, .floating⟩
  else if s = "array/geospatial/object" then ⟨.empty, .object, .array, .geo⟩
  else if s = "array/object/geospatial" then ⟨.empty, .object, .array, .geo⟩
  else if s = "object/array/geospatial" then ⟨.empty, .object, .array, .geo⟩
  else if s = "geospatial/array/object" then ⟨.empty, .object, .array, .geo⟩
  else if s = "geospatial/object/array" then ⟨.empty, .object, .array, .geo⟩
  else if s = "object/geospatial/array" then ⟨.empty, .object, .array, .geo⟩
  else if s = "array/integer/object" then ⟨.empty, .object, .array, .integer⟩
  else if s = "array/object/integer" then ⟨.empty, .object, .array, .integer⟩
  else if s = "object/array/integer" then ⟨.empty, .object, .array, .integer⟩
  else if s = "integer/array/object" then ⟨.empty, .object, .array, .integer⟩
  else if s = "integer/object/array" then ⟨.empty, .object, .array, .integer⟩
  else if s = "object/integer/array" then ⟨.empty, .object, .array, .integer⟩
  else if s = "array/positive/object" then ⟨.empty, .object, .array, .positive⟩
  else if s = "array/object/positive" then ⟨.empty, .object, .array, .positive⟩
  else if s = "object/array/positive" then ⟨.empty, .object, .array, .positive⟩
  else if s = "positive/array/object" then ⟨.empty, .object, .array, .positive⟩
  else if s = "positive/object/array" then ⟨.empty, .object, .array, .positive⟩
  else if s = "object/positive/array" then ⟨.empty, .object, .array, .positive⟩
  else if s = "array/string/object" then ⟨.empty, .object, .array, .string⟩
  else if s = "array/object/string" then ⟨.empty, .object, .array, .string⟩
  else if s = "object/array/string" then ⟨.empty, .object, .array, .string⟩
  else if s = "string/array/object" then ⟨.empty, .object, .array, .string⟩
  else if s = "string/object/array" then ⟨.empty, .object, .array, .string⟩
  else if s = "object/string/array" then ⟨.empty, .object, .array, .string⟩
  else if s = "array/term/object" then ⟨.empty, .object, .array, .keyword⟩
  else if s = "array/object/term" then ⟨.empty, .object, .array, .keyword⟩
  else if s = "object/array/term" then ⟨.empty, .object, .array, .keyword⟩
  else if s = "term/array/object" then ⟨.empty, .object, .array, .keyword⟩
  else if s = "term/object/array" then ⟨.empty, .object, .array, .keyword⟩
  else if s = "object/term/array" then ⟨.empty, .object, .array, .keyword⟩
  else if s = "array/keyword/object" then ⟨.empty, .object, .array, .keyword⟩
  else if s = "array/object/keyword" then ⟨.empty, .object, .array, .keyword⟩
  else if s = "object/array/keyword" then ⟨.empty, .object, .array, .keyword⟩
  else if s = "keyword/array/object" then ⟨.empty, .object, .array, .keyword⟩
  else if s = "keyword/object/array" then ⟨.empty, .object, .array, .keyword⟩
  else if s = "object/keyword/array" then ⟨.empty, .object, .array, .keyword⟩
  else if s = "array/text/object" then ⟨.empty, .object, .array, .text⟩
  else if s = "array/object/text" then ⟨.empty, .object, .array, .text⟩
  else if s = "object/array/text" then ⟨.empty, .object, .array, .text⟩
  else if s = "text/array/object" then ⟨.empty, .object, .array, .text⟩
  else if s = "text/object/array" then ⟨.empty, .object, .array, .text⟩
  else if s = "object/text/array" then ⟨.empty, .object, .array, .text⟩
  else if s = "array/time/object" then ⟨.empty, .object, .array, .time⟩
  else if s = "array/object/time" then ⟨.empty, .object, .array, .time⟩
  else if s = "object/array/time" then ⟨.empty, .object, .array, .time⟩
  else if s = "time/array/object" then ⟨.empty, .object, .array, .time⟩
  else if s = "time/object/array" then ⟨.empty, .object, .array, .time⟩
  else if s = "object/time/array" then ⟨.empty, .object, .array, .time⟩
  else if s = "array/timedelta/object" then ⟨.empty, .object, .array, .timedelta⟩
  else if s = "array/object/timedelta" then ⟨.empty, .object, .array, .timedelta⟩
  else if s = "object/array/timedelta" then ⟨.empty, .object, .array, .timedelta⟩
  else if s = "timedelta/array/object" then ⟨.empty, .object, .array, .timedelta⟩
  else if s = "timedelta/object/array" then ⟨.empty, .object, .array, .timedelta⟩
  else if s = "object/timedelta/array" then ⟨.empty, .object, .array, .timedelta⟩
  else if s = "array/uuid/object" then ⟨.empty, .object, .array, .uuid⟩
  else if s = "array/object/uuid" then ⟨.empty, .object, .array, .uuid⟩
  else if s = "object/array/uuid" then ⟨.empty, .object, .array, .uuid⟩
  else if s = "uuid/array/object" then ⟨.empty, .object, .array, .uuid⟩
  else if s = "uuid/object/array" then ⟨.empty, .object, .array, .uuid⟩
  else if s = "object/uuid/array" then ⟨.empty, .object, .array, .uuid⟩
  else if s = "boolean/object" then ⟨.empty, .object, .empty, .boolean⟩
  else if s = "object/boolean" then ⟨.empty, .object, .empty, .boolean⟩
  else if s = "date/object" then ⟨.empty, .object, .empty, .date⟩
  else if s = "object/date" then ⟨.empty, .object, .empty, .date⟩
  else if s = "datetime/object" then ⟨.empty, .object, .empty, .datetime⟩
  else if s = "object/datetime" then ⟨.empty, .object, .empty, .datetime⟩
  else if s = "float/object" then ⟨.empty, .object, .empty, .floating⟩
  else if s = "object/float" then ⟨.empty, .object, .empty, .floating⟩
  else if s = "geospatial/object" then ⟨.empty, .object, .empty, .geo⟩
  else if s = "object/geospatial" then ⟨.empty, .object, .empty, .geo⟩
  else if s = "integer/object" then ⟨.empty, .object, .empty, .integer⟩
  else if s = "object/integer" then ⟨.empty, .object, .empty, .integer⟩
  else if s = "positive/object" then ⟨.empty, .object, .empty, .positive⟩
  else if s = "object/positive" then ⟨.empty, .object, .empty, .positive⟩
  else if s = "string/object" then ⟨.empty, .object, .empty, .string⟩
  else if s = "object/string" then ⟨.empty, .object, .empty, .string⟩
  else if s = "term/object" then ⟨.empty, .object, .empty, .keyword⟩
  else if s = "object/term" then ⟨.empty, .object, .empty, .keyword⟩
  else if s = "keyword/object" then ⟨.empty, .object, .empty, .keyword⟩
  else if s = "object/keyword" then ⟨.empty, .object, .empty, .keyword⟩
  else if s = "text/object" then ⟨.empty, .object, .empty, .text⟩
  else if s = "object/text" then ⟨.empty, .object, .empty, .text⟩
  else if s = "time/object" then ⟨.empty, .object, .empty, .time⟩
  else if s = "object/time" then ⟨.empty, .object, .empty, .time⟩
  else if s = "timedelta/object" then ⟨.empty, .object, .empty, .timedelta⟩
  else if s = "object/timedelta" then ⟨.empty, .object, .empty, .timedelta⟩
  else if s = "uuid/object" then ⟨.empty, .object, .empty, .uuid⟩
  else if s = "object/uuid" then ⟨.empty, .object, .empty, .uuid⟩
  else if s = "foreign" then ⟨.foreign, .empty, .empty, .empty⟩
  else if s = "object/foreign" then ⟨.foreign, .object, .empty, .empty⟩
  else if s = "foreign/object" then ⟨.foreign, .object, .empty, .empty⟩
  else if s = "script" then ⟨.empty, .empty, .empty, .script⟩
  else ⟨.empty, .empty, .empty, .empty⟩

/-- Shallow embedding of `required_spc_t::get_types` (schema.cc:2062-2072):
wraps `_get_type` and raises `ClientError` (modelled as `none`) when the
parse yields the all-empty tuple. -/
def get_types (s : String) : Option SepTypes :=
  let t := _get_type s
  if t = ⟨.empty, .empty, .empty, .empty⟩ then none else some t

/-- Shallow embedding of `_get_str_type` (schema.cc:1294-1621): the
canonical-format table from a `sep_types` tuple to its string form.  Each
`case _.fhh(...)` of the C++ switch is one entry. -/
def strTypeTable : List (SepTypes × String) :=
[(⟨.empty, .empty, .empty, .empty⟩, "undefined"),
  (⟨.empty, .empty, .array, .empty⟩, "array"),
  (⟨.empty, .empty, .array, .boolean⟩, "array/boolean"),
  (⟨.empty, .empty, .array, .date⟩, "array/date"),
  (⟨.empty, .empty, .array, .datetime⟩, "array/datetime"),
  (⟨.empty, .empty, .array, .floating⟩, "array/float"),
  (⟨.empty, .empty, .array, .geo⟩, "array/geospatial"),
  (⟨.empty, .empty, .array, .integer⟩, "array/integer"),
  (⟨.empty, .empty, .array, .positive⟩, "array/positive"),
  (⟨.empty, .empty, .array, .keyword⟩, "array/keyword"),
  (⟨.empty, .empty, .array, .string⟩, "array/string"),
  (⟨.empty, .empty, .array, .text⟩, "array/text"),
  (⟨.empty, .empty, .array, .time⟩, "array/time"),
  (⟨.empty, .empty, .array, .timedelta⟩, "array/timedelta"),
  (⟨.empty, .empty, .array, .uuid⟩, "array/uuid"),
  (⟨.empty, .empty, .empty, .boolean⟩, "boolean"),
  (⟨.empty, .empty, .empty, .date⟩, "date"),
  (⟨.empty, .empty, .empty, .datetime⟩, "datetime"),
  (⟨.empty, .empty, .empty, .floating⟩, "floating"),
  (⟨.foreign, .empty, .empty, .empty⟩, "foreign"),
  (⟨.foreign, .object, .empty, .empty⟩, "foreign/object"),
  (⟨.foreign, .empty, .empty, .script⟩, "foreign/script"),
  (⟨.empty, .empty, .empty, .geo⟩, "geospatial"),
  (⟨.empty, .empty, .empty, .integer⟩, "integer"),
  (⟨.empty, .object, .empty, .empty⟩, "object"),
  (⟨.empty, .object, .array, .empty⟩, "object/array"),
  (⟨.empty, .object, .array, .boolean⟩, "object/array/boolean"),
  (⟨.empty, .object, .array, .date⟩, "object/array/date"),
  (⟨.empty, .object, .array, .datetime⟩, "object/array/datetime"),
  (⟨.empty, .object, .array, .floating⟩, "object/array/float"),
  (⟨.empty, .object, .array, .geo⟩, "object/array/geospatial"),
  (⟨.empty, .object, .array, .integer⟩, "object/array/integer"),
  (⟨.empty, .object, .array, .positive⟩, "object/array/positive"),
  (⟨.empty, .object, .array, .string⟩, "object/array/string"),
  (⟨.empty, .object, .array, .keyword⟩, "object/array/keyword"),
  (⟨.empty, .object, .array, .text⟩, "object/array/text"),
  (⟨.empty, .object, .array, .time⟩, "object/array/time"),
  (⟨.empty, .object, .array, .timedelta⟩, "object/array/timedelta"),
  (⟨.empty, .object, .array, .uuid⟩, "object/array/uuid"),
  (⟨.empty, .object, .empty, .boolean⟩, "object/boolean"),
  (⟨.empty, .object, .empty, .date⟩, "object/date"),
  (⟨.empty, .object, .empty, .datetime⟩, "object/datetime"),
  (⟨.empty, .object, .empty, .floating⟩, "object/float"),
  (⟨.empty, .object, .empty, .geo⟩, "object/geospatial"),
  (⟨.empty, .object, .empty, .integer⟩, "object/integer"),
  (⟨.empty, .object, .empty, .positive⟩, "object/positive"),
  (⟨.empty, .object, .empty, .string⟩, "object/string"),
  (⟨.empty, .object, .empty, .keyword⟩, "object/keyword"),
  (⟨.empty, .object, .empty, .text⟩, "object/text"),
  (⟨.empty, .object, .empty, .time⟩, "object/time"),
  (⟨.empty, .object, .empty, .timedelta⟩, "object/timedelta"),
  (⟨.empty, .object, .empty, .uuid⟩, "object/uuid"),
  (⟨.empty, .empty, .empty, .positive⟩, "positive"),
  (⟨.empty, .empty, .empty, .script⟩, "script"),
  (⟨.empty, .empty, .empty, .string⟩, "string"),
  (⟨.empty, .empty, .empty, .keyword⟩, "keyword"),
  (⟨.empty, .empty, .empty, .text⟩, "text"),
  (⟨.empty, .empty, .empty, .time⟩, "time"),
  (⟨.empty, .empty, .empty, .timedelta⟩, "timedelta"),
  (⟨.empty, .empty, .empty, .uuid⟩, "uuid")]

/-- Shallow embedding of `_get_str_type` (schema.cc:1294-1621): the lookup
in the canonical-format table.  The C++ default case builds a token string
and raises `ClientError`, modelled as `none`. -/
def _get_str_type (t : SepTypes) : Option String :=
  (strTypeTable.find? (fun p => p.1 == t)).map (fun p => p.2)

/-- The concrete type tags that can be combined with the modifier tokens
`object` and `array` in `_get_type`'s table, with their canonical
FieldType (synonym `term` maps to keyword; the combined forms use the
token `float` for floating). -/
def combiningTags : List (String × FieldType) :=
  [("boolean", .boolean), ("date", .date), ("datetime", .datetime),
   ("float", .floating), ("geospatial", .geo), ("integer", .integer),
   ("positive", .positive), ("string", .string), ("term", .keyword),
   ("keyword", .keyword), ("text", .text), ("time", .time),
   ("timedelta", .timedelta), ("uuid", .uuid)]

/-- All slash-separated permutations of subsets of `{object, array}` with
the concrete tag `c` parse to the expected canonical tuples. -/
def permAgree (c : String) (ct : FieldType) : Bool :=
  (get_types c == some ⟨.empty, .empty, .empty, ct⟩) &&
  (get_types ("array/" ++ c) == some ⟨.empty, .empty, .array, ct⟩) &&
  (get_types (c ++ "/array") == some ⟨.empty, .empty, .array, ct⟩) &&
  (get_types ("object/" ++ c) == some ⟨.empty, .object, .empty, ct⟩) &&
  (get_types (c ++ "/object") == some ⟨.empty, .object, .empty, ct⟩) &&
  (get_types ("object/array/" ++ c) == some ⟨.empty, .object, .array, ct⟩) &&
  (get_types ("array/object/" ++ c) == some ⟨.empty, .object, .array, ct⟩) &&
  (get_types ("object/" ++ c ++ "/array") == some ⟨.empty, .object, .array, ct⟩) &&
  (get_types ("array/" ++ c ++ "/object") == some ⟨.empty, .object, .array, ct⟩) &&
  (get_types (c ++ "/object/array") == some ⟨.empty, .object, .array, ct⟩) &&
  (get_types (c ++ "/array/object") == some ⟨.empty, .object, .array, ct⟩)

/-- Claim C2, counterexample: the tuple `(foreign, empty, empty, script)`
is accepted by the format table and rendered as `"foreign/script"`, but
that string is not in the parse table, so parsing raises `ClientError`
instead of returning the tuple.  The claimed round-trip fails exactly at
the claim's own example. -/
theorem c2_format_parse_counterexample :
    _get_str_type ⟨.foreign, .empty, .empty, .script⟩ = some "foreign/script" ∧
    get_types "foreign/script" = none := by
  constructor
  · rfl
  · decide

/-- Claim C2 (amended): for every tuple `t` accepted by the format table
other than the all-empty tuple and `(foreign, empty, empty, script)`,
parsing the canonical string back yields `t` again. -/
theorem c2_format_parse_roundtrip (t : SepTypes) (s : String)
    (h : _get_str_type t = some s)
    (hne : t ≠ ⟨.empty, .empty, .empty, .empty⟩)
    (hfs : t ≠ ⟨.foreign, .empty, .empty, .script⟩) :
    get_types s = some t := by
  have key : ∀ p ∈ strTypeTable,
      p.1 = (⟨.empty, .empty, .empty, .empty⟩ : SepTypes) ∨
      p.1 = (⟨.foreign, .empty, .empty, .script⟩ : SepTypes) ∨
      get_types p.2 = some p.1 := by decide
  unfold _get_str_type at h
  cases hfind : strTypeTable.find? (fun p => p.1 == t) with
  | none => rw [hfind] at h; exact Option.noConfusion h
  | some p =>
    rw [hfind] at h
    have hp1 : p.1 = t := by
      have := List.find?_some hfind
      exact eq_of_beq this
    have hmem : p ∈ strTypeTable := List.mem_of_find?_eq_some hfind
    have hp2 : p.2 = s := Option.some.inj h
    rcases key p hmem with h1 | h1 | h1
    · exact absurd (hp1 ▸ h1.symm) (fun he => hne he.symm)
    · exact absurd (hp1 ▸ h1.symm) (fun he => hfs he.symm)
    · rw [← hp2, h1, hp1]

/-- Witness for the amended C2 round-trip at the concrete tuple
`(empty, empty, array, keyword)`. -/
theorem c2_format_parse_roundtrip_witness :
    _get_str_type ⟨.empty, .empty, .array, .keyword⟩ = some "array/keyword" ∧
    (⟨.empty, .empty, .array, .keyword⟩ : SepTypes) ≠ ⟨.empty, .empty, .empty, .empty⟩ ∧
    (⟨.empty, .empty, .array, .keyword⟩ : SepTypes) ≠ ⟨.foreign, .empty, .empty, .script⟩ ∧
    get_types "array/keyword" = some ⟨.empty, .empty, .array, .keyword⟩ :=
  ⟨by rfl, by decide, by decide,
   c2_format_parse_roundtrip ⟨.empty, .empty, .array, .keyword⟩ "array/keyword"
     (by rfl) (by decide) (by decide)⟩

/-- Claim C7, counterexample: the claim requires
`parse_type("foreign/array/keyword")` to be accepted, but the parse table
has no entry combining `foreign` with `array` or with a concrete tag, so
`_get_type` falls through to the all-empty tuple and
`required_spc_t::get_types` raises `ClientError` (modelled as `none`). -/
theorem c7_permutations_counterexample :
    get_types "foreign/array/keyword" = none ∧
    _get_type "foreign/array/keyword" = ⟨.empty, .empty, .empty, .empty⟩ := by
  constructor
  · decide
  · decide

/-- Claim C7 (amended): for every subset of the modifier tokens
`{object, array}` combined with a combinable concrete tag, `parse_type`
accepts every slash-separated permutation and maps all of them to the same
canonical tuple (synonym `term` is keyword; the synonym `floating` is
accepted standalone only, the combined forms use `float`); the modifier
`foreign` is accepted only bare, or with `object` in either order. -/
theorem c7_permutations_amended :
    (combiningTags.all fun p => permAgree p.1 p.2) = true ∧
    get_types "floating" = some ⟨.empty, .empty, .empty, .floating⟩ ∧
    get_types "foreign" = some ⟨.foreign, .empty, .empty, .empty⟩ ∧
    get_types "foreign/object" = some ⟨.foreign, .object, .empty, .empty⟩ ∧
    get_types "object/foreign" = some ⟨.foreign, .object, .empty, .empty⟩ ∧
    get_types "object" = some ⟨.empty, .object, .empty, .empty⟩ ∧
    get_types "array" = some ⟨.empty, .empty, .array, .empty⟩ ∧
    get_types "object/array" = some ⟨.empty, .object, .array, .empty⟩ ∧
    get_types "array/object" = some ⟨.empty, .object, .array, .empty⟩ := by
  refine ⟨by decide, ?_, ?_, ?_, ?_, ?_, ?_, ?_, ?_⟩ <;> decide

/-!  Term indexing: `Schema::index_simple_term` and the final boolean id
term of `Schema::index`.  Terms are byte strings, modelled as `List Nat`
so that `term.size()` is the byte length. -/

/-- A `ClientError` exception (exception.h, not under src/; carries a
message string). -/
structure ClientError where
  msg : String
deriving DecidableEq, Repr

/-- The reserved numeric-id sentinel term `"QN\x80"` (bytes 0x51 0x4E
0x80). -/
def qn80 : List Nat := [81, 78, 128]

/-- Modelled from the spec: `getPos` (not under src/) indexes the lazy
per-position override sequences "modulo size" (spec section 3). -/
def getPos (pos n : Nat) : Nat := pos % n

/-- A term-addition action on the Xapian document: either
`doc.add_posting(term, position, weight)` or `doc.add_term(term, weight)`. -/
inductive TermAction
  | posting (term : List Nat) (position : Nat) (weight : Nat)
  | termAdd (term : List Nat) (weight : Nat)
deriving DecidableEq, Repr

/-- The term added by a `TermAction`. -/
def TermAction.term : TermAction → List Nat
  | .posting t _ _ => t
  | .termAdd t _ => t

/-- The per-field data consulted by `Schema::index_simple_term`
(a fragment of `specification_t`). -/
structure TermSpc where
  concreteT : FieldType
  boolTerm : Bool
  weight : List Nat
  position : List Nat
deriving DecidableEq, Repr

/-- Shallow embedding of `Schema::index_simple_term` (schema.cc:5422-5447):
terms longer than 245 bytes raise `ClientError("Keyword too long")` for
keyword fields and are silently skipped otherwise; the reserved sentinel
`"QN\x80"` is silently skipped; otherwise the term is added as a posting
when the positional override is non-zero, as a plain term otherwise
(weight 0 for boolean terms). -/
def index_simple_term (term : List Nat) (field_spc : TermSpc) (pos : Nat) :
    Except ClientError (Option TermAction) :=
  if term.length > 245 then
    if field_spc.concreteT = FieldType.keyword then
      .error ⟨"Keyword too long"⟩
    else
      .ok none
  else if term = qn80 then
    .ok none
  else if field_spc.position.getD (getPos pos field_spc.position.length) 0 ≠ 0 then
    .ok (some (.posting term
      (field_spc.position.getD (getPos pos field_spc.position.length) 0)
      (if field_spc.boolTerm then 0
       else field_spc.weight.getD (getPos pos field_spc.weight.length) 0)))
  else
    .ok (some (.termAdd term
      (if field_spc.boolTerm then 0
       else field_spc.weight.getD (getPos pos field_spc.weight.length) 0)))

/-- Shallow embedding of the final id-term step of `Schema::index`
(schema.cc:3012-3014): `if (term_id != "QN\x80") doc.add_boolean_term(term_id)`. -/
def add_boolean_id_term (term_id : List Nat) (boolTerms : List (List Nat)) :
    List (List Nat) :=
  if term_id ≠ qn80 then term_id :: boolTerms else boolTerms

/-- Claim C3: a term of 246 bytes or more adds nothing to the document:
for the keyword concrete type `index_simple_term` raises
`ClientError("Keyword too long")`, and for every other concrete type it
silently returns without adding a term or posting. -/
theorem c3_oversize_term (term : List Nat) (spc : TermSpc) (pos : Nat)
    (h : 246 ≤ term.length) :
    index_simple_term term spc pos =
      if spc.concreteT = FieldType.keyword then Except.error ⟨"Keyword too long"⟩
      else Except.ok none := by
  unfold index_simple_term
  rw [if_pos (by omega)]

/-- Witness for C3 at a concrete 246-byte term, for both the keyword and a
non-keyword concrete type. -/
theorem c3_oversize_term_witness :
    246 ≤ (List.replicate 246 97).length ∧
    index_simple_term (List.replicate 246 97) ⟨FieldType.keyword, true, [1], [0]⟩ 0 =
      Except.error ⟨"Keyword too long"⟩ ∧
    index_simple_term (List.replicate 246 97) ⟨FieldType.text, false, [1], [0]⟩ 0 =
      Except.ok none := by
  refine ⟨by simp, ?_, ?_⟩
  · rw [c3_oversize_term _ _ _ (by simp)]
    rfl
  · rw [c3_oversize_term _ _ _ (by simp)]
    rfl

/-- Claim C4: the reserved sentinel `"QN\x80"` is never added to the
document: `index_simple_term` never emits it as a term or posting, and the
final boolean id term of `Schema::index` is only added when it differs
from the sentinel. -/
theorem c4_sentinel_never_added (term : List Nat) (spc : TermSpc) (pos : Nat)
    (a : TermAction) (h : index_simple_term term spc pos = .ok (some a))
    (term_id : List Nat) (doc : List (List Nat)) (hdoc : qn80 ∉ doc) :
    TermAction.term a ≠ qn80 ∧ qn80 ∉ add_boolean_id_term term_id doc := by
  constructor
  · unfold index_simple_term at h
    split at h
    · split at h <;> simp_all
    · split at h
      · simp_all
      · split at h <;>
          (cases h; simp only [TermAction.term]; assumption)
  · unfold add_boolean_id_term
    split
    · intro hmem
      rcases List.mem_cons.mp hmem with h1 | h1
      · exact absurd h1.symm (by assumption)
      · exact hdoc h1
    · exact hdoc

/-- Witness for C4 at a concrete one-byte term and an empty boolean term
set. -/
theorem c4_sentinel_never_added_witness :
    index_simple_term [97] ⟨FieldType.keyword, true, [1], [1]⟩ 0 =
      Except.ok (some (TermAction.posting [97] 1 0)) ∧
    qn80 ∉ ([] : List (List Nat)) ∧
    (TermAction.term (TermAction.posting [97] 1 0) ≠ qn80 ∧
      qn80 ∉ add_boolean_id_term qn80 []) :=
  ⟨by rfl, by simp,
   c4_sentinel_never_added [97] ⟨FieldType.keyword, true, [1], [1]⟩ 0
     (TermAction.posting [97] 1 0) (by rfl) qn80 [] (by simp)⟩

/-!  Draft-discarding error propagation: `Schema::index`
(schema.cc:2782-3021), `Schema::update` (schema.cc:3666-3740) and
`Schema::write` (schema.cc:4120-4182) all wrap their entire body in
`try { ... } catch (...) { mut_schema.reset(); throw; }`.  Within these
operations the published `schema` member is never reassigned (it is only
set in the constructor); the body reads the published schema and may
install or replace the owned draft `mut_schema`. -/

/-- The two-part schema state: the published immutable snapshot `schema`
and the owned mutable draft `mut_schema`. -/
structure SchemaHandle (σ δ : Type) where
  schema : σ
  mut_schema : Option δ

/-- Shallow embedding of the common wrapper of `Schema::index`,
`Schema::update` and `Schema::write`: run the body (which may read the
published schema, read and replace the draft, and throw); on success keep
the body's draft, on any thrown error discard the draft
(`mut_schema.reset()`) and re-throw. -/
def guarded_schema_op {σ δ ε ρ : Type}
    (body : σ → Option δ → Except ε (Option δ × ρ))
    (st : SchemaHandle σ δ) : Except ε ρ × SchemaHandle σ δ :=
  match body st.schema st.mut_schema with
  | .ok (draft, r) => (.ok r, ⟨st.schema, draft⟩)
  | .error e => (.error e, ⟨st.schema, none⟩)

/-- Claim C1: whatever the body of `Schema::index` / `Schema::update` /
`Schema::write` does, if the operation propagates an error then the
resulting state has the draft discarded (`mut_schema = none`) and the
published schema unchanged. -/
theorem c1_error_discards_draft {σ δ ε ρ : Type}
    (body : σ → Option δ → Except ε (Option δ × ρ))
    (st : SchemaHandle σ δ) (e : ε) (st2 : SchemaHandle σ δ)
    (h : guarded_schema_op body st = (.error e, st2)) :
    st2.mut_schema = none ∧ st2.schema = st.schema := by
  unfold guarded_schema_op at h
  split at h
  · exact absurd (congrArg Prod.fst h) (by simp)
  · injection h with h1 h2
    subst h2
    exact ⟨rfl, rfl⟩

/-- Witness for C1 with a concrete always-throwing body on a state that
holds a draft. -/
theorem c1_error_discards_draft_witness :
    guarded_schema_op (fun (_ : Nat) (_ : Option Nat) => (Except.error 7 : Except Nat (Option Nat × Nat)))
      ⟨5, some 3⟩ = (Except.error 7, ⟨5, none⟩) ∧
    ((⟨5, none⟩ : SchemaHandle Nat Nat).mut_schema = none ∧
      (⟨5, none⟩ : SchemaHandle Nat Nat).schema = (⟨5, some 3⟩ : SchemaHandle Nat Nat).schema) :=
  ⟨by rfl,
   c1_error_discards_draft
     (fun (_ : Nat) (_ : Option Nat) => (Except.error 7 : Except Nat (Option Nat × Nat)))
     ⟨5, some 3⟩ 7 ⟨5, none⟩ (by rfl)⟩

/-!  Sibling duplicate detection: `Schema::index_subproperties`
(schema.cc:3025-3170). -/

/-- A rendering form of a UUID-looking field name: compact encoded,
canonical hex, `urn:uuid:` form, or braced form. -/
inductive UUIDRepr
  | compact
  | hex
  | urn
  | braced
deriving DecidableEq, Repr

/-- A sibling field name as classified by `Schema::detect_dynamic`
(schema.cc:6254-6278): either a plain name or a UUID-looking name.
Modelled from the spec: `Serialise::possiblyUUID` and `Serialise::uuid`
(serialise.cc, not under src/) accept any of the four renderings of the
same underlying 128-bit value, so a UUID name is modelled by its
underlying value plus its rendering form. -/
inductive FieldName
  | plain (bytes : List Nat)
  | uuidName (value : Nat) (form : UUIDRepr)
deriving DecidableEq, Repr

/-- The key under which `Schema::index_subproperties` inserts a sibling
field into the data map (schema.cc:3155-3161): plain names verbatim, UUID
names under `normalize_uuid(field_name)` (modelled from the spec: the
normalized form depends only on the underlying UUID value). -/
inductive SiblingKey
  | plainKey (bytes : List Nat)
  | uuidKey (value : Nat)
deriving DecidableEq, Repr

/-- The canonical data-map key of a sibling name
(`detect_dynamic` + `normalize_uuid`). -/
def detect_dynamic_key : FieldName → SiblingKey
  | .plain b => .plainKey b
  | .uuidName v _ => .uuidKey v

/-- Shallow embedding of `Schema::process_store` (schema.cc:8630-8646):
`_store` is heritable and user-settable, and once fixed to false it cannot
be re-enabled in offsprings:
`flags.store = flags.parent_store && value`. -/
def process_store (parent_store value : Bool) : Bool := parent_store && value

/-- Shallow embedding of the terminal-segment insertion of
`Schema::index_subproperties` (schema.cc:3122-3163) over the sibling
fields of one object: each entry carries the field name, the array
position `pos`, and the `specification.flags.store` value in effect for
that field.  When `store` is set, the name is inserted into the data map
under its canonical key and `!inserted.second && pos == 0` raises
`ClientError("Field ... is duplicated")` (at `pos > 0` the existing entry
is reused); when `store` is false the insert and its duplicate check are
skipped entirely (the whole block is guarded by
`if (specification.flags.store)`, schema.cc:3051-3057, 3130-3162). -/
def index_siblings : List (FieldName × Nat × Bool) → List SiblingKey →
    Except ClientError (List SiblingKey)
  | [], data => .ok data
  | (n, pos, store) :: rest, data =>
    if store then
      if detect_dynamic_key n ∈ data then
        if pos = 0 then .error ⟨"Field is duplicated"⟩
        else index_siblings rest data
      else index_siblings rest (data ++ [detect_dynamic_key n])
    else index_siblings rest data

/-- If some key is already in the data map and a later stored sibling with
that key arrives at position 0, traversal errors. -/
theorem index_siblings_error_of_mem (l : List (FieldName × Nat × Bool)) :
    ∀ (data : List SiblingKey) (k : SiblingKey), k ∈ data →
    (∃ m ∈ l, detect_dynamic_key m.1 = k ∧ m.2.1 = 0 ∧ m.2.2 = true) →
    ∃ err, index_siblings l data = .error err := by
  induction l with
  | nil =>
    rintro data k _ ⟨m, hm, _⟩
    exact absurd hm (List.not_mem_nil m)
  | cons e rest ih =>
    rintro data k hk ⟨m, hm, hkey, hpos, hst⟩
    obtain ⟨n, pos, store⟩ := e
    rcases List.mem_cons.mp hm with rfl | hm2
    · simp only [index_siblings]
      rw [if_pos hst, if_pos (hkey ▸ hk), if_pos hpos]
      exact ⟨_, rfl⟩
    · simp only [index_siblings]
      by_cases hs : store = true
      · rw [if_pos hs]
        by_cases h1 : detect_dynamic_key n ∈ data
        · rw [if_pos h1]
          by_cases h2 : pos = 0
          · rw [if_pos h2]; exact ⟨_, rfl⟩
          · rw [if_neg h2]; exact ih data k hk ⟨m, hm2, hkey, hpos, hst⟩
        · rw [if_neg h1]
          exact ih (data ++ [detect_dynamic_key n]) k (List.mem_append_left _ hk)
            ⟨m, hm2, hkey, hpos, hst⟩
      · rw [if_neg hs]
        exact ih data k hk ⟨m, hm2, hkey, hpos, hst⟩

/-- Two stored siblings with the same canonical key, the second at
position 0, make the traversal error whatever surrounds them. -/
theorem index_siblings_dup_error (n1 n2 : FieldName) (p1 : Nat)
    (hkey : detect_dynamic_key n1 = detect_dynamic_key n2)
    (l1 : List (FieldName × Nat × Bool)) :
    ∀ (data : List SiblingKey) (l2 l3 : List (FieldName × Nat × Bool)),
    ∃ err, index_siblings (l1 ++ (n1, p1, true) :: l2 ++ (n2, 0, true) :: l3) data =
      .error err := by
  induction l1 with
  | nil =>
    intro data l2 l3
    simp only [List.nil_append, index_siblings]
    rw [if_pos trivial]
    by_cases h1 : detect_dynamic_key n1 ∈ data
    · rw [if_pos h1]
      by_cases h2 : p1 = 0
      · rw [if_pos h2]; exact ⟨_, rfl⟩
      · rw [if_neg h2]
        exact index_siblings_error_of_mem _ data (detect_dynamic_key n1) h1
          ⟨(n2, 0, true), by simp, hkey.symm, rfl, rfl⟩
    · rw [if_neg h1]
      exact index_siblings_error_of_mem _ (data ++ [detect_dynamic_key n1])
        (detect_dynamic_key n1) (by simp) ⟨(n2, 0, true), by simp, hkey.symm, rfl, rfl⟩
  | cons e rest ih =>
    intro data l2 l3
    obtain ⟨n, pos, store⟩ := e
    simp only [List.cons_append, index_siblings]
    by_cases hs : store = true
    · rw [if_pos hs]
      by_cases h1 : detect_dynamic_key n ∈ data
      · rw [if_pos h1]
        by_cases h2 : pos = 0
        · rw [if_pos h2]; exact ⟨_, rfl⟩
        · rw [if_neg h2]; exact ih data l2 l3
      · rw [if_neg h1]; exact ih _ l2 l3
    · rw [if_neg hs]; exact ih data l2 l3

/-- Siblings that all arrive at positions greater than 0 are never
rejected, whatever their store flags. -/
theorem index_siblings_ok_of_pos (m : List (FieldName × Nat × Bool)) :
    ∀ (data : List SiblingKey), (∀ e ∈ m, e.2.1 ≠ 0) →
    ∃ d, index_siblings m data = .ok d := by
  induction m with
  | nil => intro data _; exact ⟨data, rfl⟩
  | cons e rest ih =>
    intro data hm
    obtain ⟨n, pos, store⟩ := e
    have hpos : pos ≠ 0 := hm (n, pos, store) (List.mem_cons_self _ _)
    simp only [index_siblings]
    by_cases hs : store = true
    · rw [if_pos hs]
      by_cases h1 : detect_dynamic_key n ∈ data
      · rw [if_pos h1, if_neg hpos]
        exact ih data (fun e he => hm e (List.mem_cons_of_mem _ he))
      · rw [if_neg h1]
        exact ih _ (fun e he => hm e (List.mem_cons_of_mem _ he))
    · rw [if_neg hs]
      exact ih data (fun e he => hm e (List.mem_cons_of_mem _ he))

/-- Claim C5, counterexample: every duplicate-detecting insert and its
duplicated-field throw sits inside `if (specification.flags.store)`
(schema.cc:3051-3057, 3130-3162), and `_store` is user-settable to false
through `process_store`.  With storing disabled, four renderings of the
same UUID all at position 0 traverse without any error, so the claim's
unconditional "traversal fails" is false. -/
theorem c5_duplicate_siblings_counterexample :
    process_store true false = false ∧
    detect_dynamic_key (FieldName.uuidName 7 UUIDRepr.compact) =
      detect_dynamic_key (FieldName.uuidName 7 UUIDRepr.urn) ∧
    index_siblings
      [(FieldName.uuidName 7 UUIDRepr.compact, 0, process_store true false),
       (FieldName.uuidName 7 UUIDRepr.urn, 0, process_store true false),
       (FieldName.uuidName 7 UUIDRepr.hex, 0, process_store true false),
       (FieldName.uuidName 7 UUIDRepr.braced, 0, process_store true false)] [] =
      .ok [] :=
  ⟨rfl, rfl, rfl⟩

/-- Claim C5 (amended): for sibling fields indexed with storing enabled
(`flags.store`, the default), two names that canonicalize to the same key
with the second arriving at position 0 (in particular two textual
renderings of the same UUID) make the traversal fail with the
duplicated-field `ClientError`; and sibling entries arriving only at
positions greater than 0 are never rejected. -/
theorem c5_duplicate_siblings
    (l1 l2 l3 : List (FieldName × Nat × Bool)) (n1 n2 : FieldName) (p1 : Nat)
    (hkey : detect_dynamic_key n1 = detect_dynamic_key n2)
    (m : List (FieldName × Nat × Bool)) (hm : ∀ e ∈ m, e.2.1 ≠ 0)
    (d0 : List SiblingKey) :
    (∃ err, index_siblings (l1 ++ (n1, p1, true) :: l2 ++ (n2, 0, true) :: l3) [] =
      .error err) ∧
    (∃ d, index_siblings m d0 = .ok d) :=
  ⟨index_siblings_dup_error n1 n2 p1 hkey l1 [] l2 l3,
   index_siblings_ok_of_pos m d0 hm⟩

/-- Witness for the amended C5: the four renderings of the same UUID from
test scenario S1, stored, all at position 0, are rejected, while a field
name repeated at array positions 1 and 2 is accepted. -/
theorem c5_duplicate_siblings_witness :
    detect_dynamic_key (FieldName.uuidName 7 UUIDRepr.compact) =
      detect_dynamic_key (FieldName.uuidName 7 UUIDRepr.urn) ∧
    (∀ e ∈ [(FieldName.plain [116], 1, true), (FieldName.plain [116], 2, true)],
      e.2.1 ≠ 0) ∧
    ((∃ err, index_siblings
        ([] ++ (FieldName.uuidName 7 UUIDRepr.compact, 0, true) :: [] ++
          (FieldName.uuidName 7 UUIDRepr.urn, 0, true) ::
          [(FieldName.uuidName 7 UUIDRepr.hex, 0, true),
           (FieldName.uuidName 7 UUIDRepr.braced, 0, true)]) [] = .error err) ∧
     (∃ d, index_siblings [(FieldName.plain [116], 1, true),
        (FieldName.plain [116], 2, true)] [] = .ok d)) :=
  ⟨rfl, by decide,
   c5_duplicate_siblings [] []
     [(FieldName.uuidName 7 UUIDRepr.hex, 0, true),
      (FieldName.uuidName 7 UUIDRepr.braced, 0, true)]
     (FieldName.uuidName 7 UUIDRepr.compact) (FieldName.uuidName 7 UUIDRepr.urn) 0 rfl
     [(FieldName.plain [116], 1, true), (FieldName.plain [116], 2, true)] (by decide) []⟩

/-!  Keyword bool_term default: `Schema::validate_required_data`, keyword
branch (schema.cc:5093-5107). -/

/-- Whether a byte is an uppercase ASCII letter. -/
def isUpperByte (c : Nat) : Bool := decide (65 ≤ c ∧ c ≤ 90)

/-- Modelled from the spec: `strings::hasupper` (string utilities, not
under src/): whether the byte string contains an uppercase character. -/
def hasupper (s : List Nat) : Bool := s.any isUpperByte

/-- Shallow embedding of the keyword branch of
`Schema::validate_required_data` (schema.cc:5093-5107): when no explicit
`_bool_term` was supplied (`!has_bool_term`), `bool_term` is set to
`strings::hasupper(meta_name)` and `has_bool_term` becomes true; otherwise
both are left unchanged.  Returns `(bool_term, has_bool_term)`. -/
def validate_required_data_keyword (meta_name : List Nat)
    (bool_term has_bool_term : Bool) : Bool × Bool :=
  if !has_bool_term then (hasupper meta_name, true)
  else (bool_term, has_bool_term)

/-- Claim C6: for a keyword field with no explicit `_bool_term`,
validation sets `bool_term` to true exactly when the meta-name contains at
least one uppercase character. -/
theorem c6_bool_term_default (m : List Nat) (b : Bool) :
    ((validate_required_data_keyword m b false).1 = true ↔
      ∃ c ∈ m, 65 ≤ c ∧ c ≤ 90) ∧
    (validate_required_data_keyword m b false).1 = hasupper m := by
  constructor
  · simp [validate_required_data_keyword, hasupper, List.any_eq_true, isUpperByte]
  · simp [validate_required_data_keyword]

/-!  Id allocation: the uuid candidate loop of `Schema::index`
(schema.cc:2822-2858). -/

/-- The iteration indices of the candidate-id loop of `Schema::index`
(schema.cc:2843): `for (int t = 10; t >= 0; --t)` visits t = 10 down to 0,
eleven iterations. -/
def idLoopTicks : List Nat := [10, 9, 8, 7, 6, 5, 4, 3, 2, 1, 0]

/-- Shallow embedding of the uuid candidate loop of `Schema::index`
(schema.cc:2843-2858).  At each tick a fresh candidate UUID is generated
(counted in the second component of the result); `shardOfT t` abstracts
`fnv1ah64::hash(prefixed(serialised candidate at tick t)) % n_shards` and
`active` the activity of a shard's node.  An active candidate is
remembered, overwriting the previous one; the loop breaks as soon as the
candidate's shard equals the least-loaded shard `least`.  Returns the
remembered candidate tick and the number of candidates generated. -/
def uuid_id_loop (shardOfT : Nat → Nat) (active : Nat → Bool) (least : Nat) :
    List Nat → Option Nat → Nat → Option Nat × Nat
  | [], acc, cnt => (acc, cnt)
  | t :: ts, acc, cnt =>
    if active (shardOfT t) then
      if shardOfT t = least then (some t, cnt + 1)
      else uuid_id_loop shardOfT active least ts (some t) (cnt + 1)
    else uuid_id_loop shardOfT active least ts acc (cnt + 1)

/-- The whole candidate loop as run by `Schema::index`. -/
def uuid_id_alloc (shardOfT : Nat → Nat) (active : Nat → Bool) (least : Nat) :
    Option Nat × Nat :=
  uuid_id_loop shardOfT active least idLoopTicks none 0

/-- Specification-side description (from the claim's words) of "the last
candidate that landed on any active shard". -/
def lastActive (act : Nat → Bool) : List Nat → Option Nat → Option Nat
  | [], acc => acc
  | t :: ts, acc => lastActive act ts (if act t then some t else acc)

/-- The loop returns the first candidate whose active shard is the
least-loaded one, else the last candidate on any active shard. -/
theorem uuid_id_loop_fst (shardOfT : Nat → Nat) (active : Nat → Bool)
    (least : Nat) (l : List Nat) :
    ∀ (acc : Option Nat) (cnt : Nat),
    (uuid_id_loop shardOfT active least l acc cnt).1 =
      match l.find? (fun t => active (shardOfT t) && (shardOfT t == least)) with
      | some t => some t
      | none => lastActive (fun t => active (shardOfT t)) l acc := by
  induction l with
  | nil => intro acc cnt; rfl
  | cons t ts ih =>
    intro acc cnt
    by_cases ha : active (shardOfT t)
    · by_cases hl : shardOfT t = least
      · rw [List.find?_cons_of_pos _
          (by simp only [Bool.and_eq_true, beq_iff_eq]; exact ⟨ha, hl⟩)]
        simp only [uuid_id_loop, if_pos ha, if_pos hl]
      · rw [List.find?_cons_of_neg _ (by simp [ha, hl])]
        simp only [uuid_id_loop, if_pos ha, if_neg hl]
        rw [ih (some t) (cnt + 1)]
        simp only [lastActive, if_pos ha]
    · rw [List.find?_cons_of_neg _ (by simp [ha])]
      simp only [uuid_id_loop, if_neg ha]
      rw [ih acc (cnt + 1)]
      simp only [lastActive, if_neg ha]

/-- The loop generates at most `cnt + length` candidates. -/
theorem uuid_id_loop_snd (shardOfT : Nat → Nat) (active : Nat → Bool)
    (least : Nat) (l : List Nat) :
    ∀ (acc : Option Nat) (cnt : Nat),
    (uuid_id_loop shardOfT active least l acc cnt).2 ≤ cnt + l.length := by
  induction l with
  | nil => intro acc cnt; simp [uuid_id_loop]
  | cons t ts ih =>
    intro acc cnt
    simp only [uuid_id_loop, List.length_cons]
    by_cases ha : active (shardOfT t)
    · by_cases hl : shardOfT t = least
      · rw [if_pos ha, if_pos hl]
        show cnt + 1 ≤ cnt + (ts.length + 1)
        omega
      · rw [if_pos ha, if_neg hl]
        calc (uuid_id_loop shardOfT active least ts (some t) (cnt + 1)).2
            ≤ cnt + 1 + ts.length := ih (some t) (cnt + 1)
          _ ≤ cnt + (ts.length + 1) := by omega
    · rw [if_neg ha]
      calc (uuid_id_loop shardOfT active least ts acc (cnt + 1)).2
          ≤ cnt + 1 + ts.length := ih acc (cnt + 1)
        _ ≤ cnt + (ts.length + 1) := by omega

/-- Claim C8, counterexample: with every shard active but no candidate
ever hashing onto the least-loaded shard, the allocator generates eleven
candidate UUIDs, not ten, and accepts the eleventh (tick 0, the last
candidate generated). -/
theorem c8_id_alloc_counterexample :
    uuid_id_alloc (fun _ => 0) (fun _ => true) 1 = (some 0, 11) := by rfl

/-- Claim C8 (amended): the allocator generates at most eleven candidate
UUIDs (the loop runs from t = 10 down to t = 0), accepts the first
candidate landing on the least-loaded active shard, and otherwise uses the
last candidate that landed on any active shard. -/
theorem c8_id_alloc_amended (shardOfT : Nat → Nat) (active : Nat → Bool)
    (least : Nat) :
    (uuid_id_alloc shardOfT active least).2 ≤ 11 ∧
    (uuid_id_alloc shardOfT active least).1 =
      match idLoopTicks.find? (fun t => active (shardOfT t) && (shardOfT t == least)) with
      | some t => some t
      | none => lastActive (fun t => active (shardOfT t)) idLoopTicks none := by
  constructor
  · exact uuid_id_loop_snd shardOfT active least idLoopTicks none 0
  · exact uuid_id_loop_fst shardOfT active least idLoopTicks none 0

/-!  Value-slot length cutoff for text and string:
`Schema::index_value` (schema.cc:5881-5899). -/

/-- A leaf value as seen by `Schema::index_value`: a MsgPack string or a
value of some other shape. -/
inductive Val
  | str (bytes : List Nat)
  | other
deriving DecidableEq, Repr

/-- A term emission performed through `index_term` against the field or
the global specification. -/
inductive Emit
  | fieldTerm (v : List Nat)
  | globalTerm (v : List Nat)
deriving DecidableEq, Repr

/-- Insertion into the per-slot value set (a `std::set<std::string>`). -/
def insertSet (v : List Nat) (s : List (List Nat)) : List (List Nat) :=
  if v ∈ s then s else s ++ [v]

/-- Shallow embedding of the `FieldType::string`/`FieldType::text` branch
of `Schema::index_value` (schema.cc:5881-5899): non-strings raise
`ClientError`; a string value is indexed as a field term and/or a global
term when the corresponding specification pointer is non-null, and is
inserted into the per-slot value set only when it is at most 100 bytes
long ("only add relatively short values"). -/
def index_value_str_text (hasField hasGlobal : Bool) (value : Val)
    (s : List (List Nat)) : Except ClientError (List Emit × List (List Nat)) :=
  match value with
  | .str b =>
    .ok ((if hasField then [Emit.fieldTerm b] else []) ++
          (if hasGlobal then [Emit.globalTerm b] else []),
         if b.length ≤ 100 then insertSet b s else s)
  | .other => .error ⟨"Format invalid for this type"⟩

/-- Claim C9: a text/string leaf longer than 100 bytes is still indexed as
terms (field and/or global as enabled) but is not inserted into the
per-slot value set; consequently the value slot only ever stores values of
at most 100 bytes. -/
theorem c9_value_slot_cutoff (hasField hasGlobal : Bool) (b : List Nat)
    (s : List (List Nat)) (hb : 100 < b.length)
    (hs : ∀ v ∈ s, v.length ≤ 100) :
    index_value_str_text hasField hasGlobal (.str b) s =
      .ok ((if hasField then [Emit.fieldTerm b] else []) ++
            (if hasGlobal then [Emit.globalTerm b] else []), s) ∧
    (∀ (value : Val) (emits : List Emit) (s2 : List (List Nat)),
      index_value_str_text hasField hasGlobal value s = .ok (emits, s2) →
      ∀ v ∈ s2, v.length ≤ 100) := by
  constructor
  · simp only [index_value_str_text]
    rw [if_neg (Nat.not_le.mpr hb)]
  · intro value emits s2 h v hv
    cases value with
    | other => exact absurd h (by simp [index_value_str_text])
    | str b2 =>
      simp only [index_value_str_text] at h
      injection h with h
      have hs2 : s2 = if b2.length ≤ 100 then insertSet b2 s else s := by
        have := congrArg Prod.snd h
        exact this.symm
      subst hs2
      by_cases hlen : b2.length ≤ 100
      · rw [if_pos hlen] at hv
        unfold insertSet at hv
        by_cases hmem : b2 ∈ s
        · rw [if_pos hmem] at hv
          exact hs v hv
        · rw [if_neg hmem] at hv
          rcases List.mem_append.mp hv with h1 | h1
          · exact hs v h1
          · rw [List.mem_singleton.mp h1]
            exact hlen
      · rw [if_neg hlen] at hv
        exact hs v hv

/-- Witness for C9 at a concrete 101-byte value over an empty slot set. -/
theorem c9_value_slot_cutoff_witness :
    100 < (List.replicate 101 97).length ∧
    index_value_str_text true false (.str (List.replicate 101 97)) [] =
      .ok ([Emit.fieldTerm (List.replicate 101 97)], []) :=
  ⟨by simp,
   by
    have h := (c9_value_slot_cutoff true false (List.replicate 101 97) []
      (by simp) (by simp)).1
    simpa using h⟩

/-!  The `_id` field specification: `Schema::set_default_spc_id`
(schema.cc:9485-9513) and the auto-detected id branch of `Schema::index`
(schema.cc:2921-2935). -/

/-- The fragment of `specification_t` handled by
`Schema::set_default_spc_id`. -/
structure IdSpc where
  concreteT : FieldType
  boolTerm : Bool
  hasBoolTerm : Bool
  indexBits : Nat
  hasIndex : Bool
  localPfxField : List Nat
  slot : Nat
deriving DecidableEq, Repr

/-- Modelled from the spec: the `TypeIndex` bit constants (the enum header
is not under src/): `FIELD_TERMS = 1`, `FIELD_VALUES = 2`, and
`TypeIndex::FIELD_ALL` is their union (spec section 3, index bitset). -/
def FIELD_ALL_BITS : Nat := 3

/-- Modelled from the spec: the reserved id term-prefix constant (named
DOCUMENT ID TERM PFX here; not under src/),
the reserved term-prefix byte string of the `_id` field; the concrete
value is irrelevant to the claims. -/
def DOCUMENT_ID_TERM_PFX : List Nat := [81]

/-- The constant `DB_SLOT_ID` (database.h:58). -/
def DB_SLOT_ID : Nat := 0

/-- Shallow embedding of `Schema::set_default_spc_id`
(schema.cc:9485-9513): forces `bool_term` (and marks it supplied),
defaults the index bitset to include `FIELD_ALL` when no `_index` was
given, silently replaces a text or string concrete type by keyword, and
installs the reserved id prefix and slot. -/
def set_default_spc_id (spc : IdSpc) : IdSpc :=
  { spc with
    boolTerm := true
    hasBoolTerm := true
    indexBits :=
      if ¬spc.hasIndex then spc.indexBits ||| FIELD_ALL_BITS else spc.indexBits
    hasIndex := true
    concreteT :=
      if spc.concreteT = FieldType.text ∨ spc.concreteT = FieldType.string then
        FieldType.keyword
      else spc.concreteT
    localPfxField := DOCUMENT_ID_TERM_PFX
    slot := DB_SLOT_ID }

/-- Shallow embedding of the auto-detected id branch of `Schema::index`
(schema.cc:2921-2935): when the declared id type is empty, the type is
guessed from the supplied id value; a guessed text or string becomes
keyword, and `bool_term` is forced to true. -/
def detect_id_type (guessed : FieldType) (spc : IdSpc) : IdSpc :=
  { spc with
    concreteT :=
      if guessed = FieldType.text ∨ guessed = FieldType.string then
        FieldType.keyword
      else guessed
    boolTerm := true }

/-- Claim C10: a declared or auto-detected `_id` type of text or string is
silently replaced by keyword with `bool_term` forced, so a persisted `_id`
specification is never of type text or string. -/
theorem c10_id_never_text_or_string (spc spc2 : IdSpc) (g : FieldType) :
    ((set_default_spc_id spc).concreteT ≠ FieldType.text ∧
      (set_default_spc_id spc).concreteT ≠ FieldType.string ∧
      (set_default_spc_id spc).boolTerm = true) ∧
    ((detect_id_type g spc2).concreteT ≠ FieldType.text ∧
      (detect_id_type g spc2).concreteT ≠ FieldType.string ∧
      (detect_id_type g spc2).boolTerm = true) := by
  constructor
  · refine ⟨?_, ?_, rfl⟩ <;>
      · simp only [set_default_spc_id]
        split <;> simp_all
  · refine ⟨?_, ?_, rfl⟩ <;>
      · simp only [detect_id_type]
        split <;> simp_all
